import Mathlib

/-!
Shallow embedding of `src/main.rs` of nix-user-chroot.

The program builds an unprivileged user+mount namespace, pivots the root so
that the old root is visible at `/nix`, mirrors the old root's top-level
entries into the new root by bind mounts and symlink duplication, merges an
optional outer `/nix/store` with a newly supplied store directory, and
finally replaces the process image with the requested command.

Syscall outcomes that depend on the environment (whether a `mount`, `stat`,
`create_dir`, ... call succeeds) are passed in as explicit parameters; panics
(`unwrap` / `expect` / `panic!`) are modelled as an `Option String` (`some`
carrying the panic message) or as the `Except.error` branch of an `Except`.
Filesystem names are `String`s.
-/

namespace NixUserChroot

/-- Kind of a directory entry, as classified by `stat` in the source
(`is_dir` / `is_file` / `is_symlink`, anything else falls through).
A symlink carries its target and whether the link, once recreated at its
destination, resolves to an existing object there (`Path::exists()` follows
symlinks, so a dangling link reports `false`). -/
inductive FileKind where
  | dir : FileKind
  | file : FileKind
  | symlink (target : String) (resolves : Bool) : FileKind
  | other : FileKind
deriving DecidableEq

/-- One directory entry seen by the tree mirror (`fs::DirEntry` of the
`/nix` listing): its file name and its stat-classified kind. -/
structure DEntry where
  name : String
  kind : FileKind
deriving DecidableEq

/-- One named child of a store directory.  `src` identifies the content
provenance (the path the entry's content is bind-mounted from, or the
symlink value that is copied). -/
structure SEntry where
  name : String
  kind : FileKind
  src : String
deriving DecidableEq

/-! ## MountGuard (`WrapUmount`) -/

/-- State of a `WrapUmount` guard: the guarded path and the `defused` flag. -/
structure WrapUmount where
  path : String
  defused : Bool
deriving DecidableEq

/-- Observable action performed while a guard is dropped. -/
inductive DropEvent where
  | umountCall (path : String) : DropEvent
deriving DecidableEq

/-- `WrapUmount::defuse` sets the `defused` flag. -/
def WrapUmount.defuse (g : WrapUmount) : WrapUmount :=
  { g with defused := true }

/-- `WrapUmount::drop`: if not defused, call `umount(path)` and `.unwrap()`
the result (a failure panics); if defused, do nothing.  `umountOk` is the
outcome of the `umount` syscall.  Returns the emitted syscalls and the
panic, if any. -/
def WrapUmount.drop (g : WrapUmount) (umountOk : Bool) :
    List DropEvent × Option String :=
  if g.defused then ([], none)
  else if umountOk then ([DropEvent.umountCall g.path], none)
  else ([DropEvent.umountCall g.path], some "called Result::unwrap on an Err value: umount failed")

/-! ## CLI entry (`main`) -/

/-- Result of running `main`: usage error printed to stderr with an exit
code, a panic (the Rust runtime then terminates the process with status
101), or control handed to `run_chroot` with the resolved store directory,
command and arguments.  All mount and namespace syscalls of the program
happen inside `run_chroot`, so the first two outcomes perform none. -/
inductive MainOutcome where
  | usageExit (stderrLine : String) (code : Nat) : MainOutcome
  | panicked (msg : String) : MainOutcome
  | chrootInvoked (nixdir : String) (cmd : String) (args : List String) : MainOutcome
deriving DecidableEq

/-- Process exit status observable for each outcome: `usageExit` calls
`process::exit(code)`; a Rust panic unwinds out of `main` and the runtime
exits with status 101; after `chrootInvoked` the process image is replaced,
so no exit status of this program is observed. -/
def exitCode : MainOutcome → Option Nat
  | MainOutcome.usageExit _ c => some c
  | MainOutcome.panicked _ => some 101
  | MainOutcome.chrootInvoked _ _ _ => none

/-- `main`: `argv` is the full argument vector (binary name first);
`resolve` models `fs::canonicalize` (`none` = resolution failure).
With fewer than 3 elements the usage line is printed to stderr and the
process exits with status 1 (with an empty `argv`, `args[0]` in the usage
`eprintln!` panics first).  An unresolvable store path panics via
`unwrap_or_else(panic!)`. -/
def mainModel (argv : List String) (resolve : String → Option String) : MainOutcome :=
  match argv with
  | _ :: a1 :: a2 :: tail =>
    match resolve a1 with
    | none => MainOutcome.panicked ("failed to resolve nix directory " ++ a1)
    | some nixdir => MainOutcome.chrootInvoked nixdir a2 tail
  | arg0 :: _ =>
    MainOutcome.usageExit ("Usage: " ++ arg0 ++ " <nixpath> <command>") 1
  | [] => MainOutcome.panicked "index out of bounds: the len is 0 but the index is 0"

/-! ## Tree mirror (`bind_mount`, `bind_mount_direntry` and helpers) -/

/-- Observable action of the tree mirror.  `createDir`/`createFile` and
`createSymlink` act on the mountpoint path under the new root;
`mountBind` is the `mount(source, dest, MS_BIND | MS_REC)` syscall;
`stderrMsg` is an `eprintln!` line. -/
inductive MirrorEvent where
  | createDir (dest : String) : MirrorEvent
  | createFile (dest : String) : MirrorEvent
  | createSymlink (dest : String) (target : String) : MirrorEvent
  | mountBind (source : String) (dest : String) : MirrorEvent
  | stderrMsg (msg : String) : MirrorEvent
deriving DecidableEq

/-- Outcome of a `create_dir` call in `bind_mount_directory`:
success, failure with `ErrorKind::AlreadyExists` (tolerated by the source),
or any other failure (fatal). -/
inductive CreateRes where
  | ok : CreateRes
  | alreadyExists : CreateRes
  | err : CreateRes
deriving DecidableEq

/-- Environment-determined syscall outcomes for mirroring one entry. -/
structure SysEnv where
  statOk : Bool
  createRes : CreateRes
  mountOk : Bool
  readlinkOk : Bool
  symlinkOk : Bool
deriving DecidableEq

/-- `bind_mount(source, dest)`: performs the bind mount; on failure it only
prints a diagnostic to stderr and returns (it does not panic or exit). -/
def bind_mount (source dest : String) (mountOk : Bool) : List MirrorEvent :=
  if mountOk then [MirrorEvent.mountBind source dest]
  else [MirrorEvent.mountBind source dest,
        MirrorEvent.stderrMsg ("failed to bind mount " ++ source ++ " to " ++ dest)]

/-- `bind_mount_directory`: create the mountpoint directory under `/`
(tolerating `AlreadyExists`, panicking on any other error), then
`bind_mount` the source onto it. -/
def bind_mount_directory (e : DEntry) (env : SysEnv) : Except String (List MirrorEvent) :=
  match env.createRes with
  | CreateRes.err => Except.error ("failed to create /" ++ e.name)
  | _ => Except.ok ([MirrorEvent.createDir ("/" ++ e.name)] ++
      bind_mount ("/nix/" ++ e.name) ("/" ++ e.name) env.mountOk)

/-- `bind_mount_file`: create the mountpoint file under `/` (panicking on
failure; `File::create` succeeds on an existing plain file), then
`bind_mount` the source onto it. -/
def bind_mount_file (e : DEntry) (env : SysEnv) : Except String (List MirrorEvent) :=
  match env.createRes with
  | CreateRes.err => Except.error ("failed to create /" ++ e.name)
  | _ => Except.ok ([MirrorEvent.createFile ("/" ++ e.name)] ++
      bind_mount ("/nix/" ++ e.name) ("/" ++ e.name) env.mountOk)

/-- `mirror_symlink`: `read_link` the source (panicking on failure), then
recreate the symlink under `/` (panicking on failure). -/
def mirror_symlink (e : DEntry) (target : String) (env : SysEnv) :
    Except String (List MirrorEvent) :=
  if env.readlinkOk then
    if env.symlinkOk then
      Except.ok [MirrorEvent.createSymlink ("/" ++ e.name) target]
    else Except.error ("failed to create symlink /" ++ e.name ++ " -> " ++ target)
  else Except.error ("failed to resolve symlink /nix/" ++ e.name)

/-- `bind_mount_direntry`: unwrap the listing result (`none` models an
`io::Result` error, which panics), skip an entry named `nix` before any
stat or classification, stat the entry (panicking on failure) and dispatch
on its kind; kinds other than dir/file/symlink are silently ignored. -/
def bind_mount_direntry (oe : Option DEntry) (env : SysEnv) :
    Except String (List MirrorEvent) :=
  match oe with
  | none => Except.error "error while listing from /nix directory"
  | some e =>
    if e.name = "nix" then Except.ok []
    else if env.statOk then
      match e.kind with
      | FileKind.dir => bind_mount_directory e env
      | FileKind.file => bind_mount_file e env
      | FileKind.symlink t _ => mirror_symlink e t env
      | FileKind.other => Except.ok []
    else Except.error ("cannot get stat of /nix/" ++ e.name)

/-- The `for entry in dir { bind_mount_direntry(entry) }` loop: process the
entries left to right, stopping at the first panic.  Returns the events
emitted before the panic (if any) and the panic message. -/
def mirrorAll : List (Option DEntry × SysEnv) → List MirrorEvent × Option String
  | [] => ([], none)
  | (oe, env) :: rest =>
    match bind_mount_direntry oe env with
    | Except.error msg => ([], some msg)
    | Except.ok evs => (evs ++ (mirrorAll rest).1, (mirrorAll rest).2)

/-! ## Namespace initialization (the start of `run_chroot`) -/

/-- Observable action of the namespace-initialization phase. -/
inductive InitEvent where
  | unshareCall (newns newuser : Bool) : InitEvent
  | writeSetgroups (contents : String) : InitEvent
  | writeUidMap (contents : String) : InitEvent
  | writeGidMap (contents : String) : InitEvent
deriving DecidableEq

/-- Environment-determined syscall outcomes of the initialization phase.
`setgroupsWriteOk` is the outcome of the `write_all(b"deny")` call whose
result the source discards with `let _ =`. -/
structure InitEnv where
  unshareOk : Bool
  setgroupsOpenOk : Bool
  setgroupsWriteOk : Bool
  uidOpenOk : Bool
  uidWriteOk : Bool
  gidOpenOk : Bool
  gidWriteOk : Bool
deriving DecidableEq

/-- Lines 131-150 of `run_chroot`: one `unshare(CLONE_NEWNS | CLONE_NEWUSER)`
call (`expect` on failure), a best-effort write of `deny` to
`/proc/self/setgroups` (open failure skips it, the write result is
discarded), then `expect`-guarded open and write of `"uid uid 1"` to
`/proc/self/uid_map` and of `"gid gid 1"` to `/proc/self/gid_map`.
Returns the emitted actions and the panic, if any. -/
def nsInit (uid gid : Nat) (env : InitEnv) : List InitEvent × Option String :=
  let e1 := [InitEvent.unshareCall true true]
  if !env.unshareOk then (e1, some "unshare failed")
  else
    let e2 := e1 ++ (if env.setgroupsOpenOk then [InitEvent.writeSetgroups "deny"] else [])
    if !env.uidOpenOk then (e2, some "failed to open /proc/self/uid_map")
    else
      let e3 := e2 ++ [InitEvent.writeUidMap (toString uid ++ " " ++ toString uid ++ " 1")]
      if !env.uidWriteOk then (e3, some "failed to write new uid mapping to /proc/self/uid_map")
      else if !env.gidOpenOk then (e3, some "failed to open /proc/self/gid_map")
      else
        let e4 := e3 ++ [InitEvent.writeGidMap (toString gid ++ " " ++ toString gid ++ " 1")]
        if !env.gidWriteOk then (e4, some "failed to write new gid mapping to /proc/self/gid_map")
        else (e4, none)

/-! ## Store reconciliation: mount calls (for the read-only claim) -/

/-- Flags passed to `mount(2)` in the source. -/
inductive MFlag where
  | ms_bind : MFlag
  | ms_rec : MFlag
  | ms_remount : MFlag
  | ms_rdonly : MFlag
deriving DecidableEq

/-- One `mount` syscall as issued by the source: source, target, filesystem
type, flags and data argument. -/
structure MountCall where
  msource : Option String
  target : String
  fstype : Option String
  flags : List MFlag
  mdata : Option String
deriving DecidableEq

/-- Per-entry bind mounts of one store-population pass: the source issues
`mount(storePath, /nix/store/name, MS_BIND | MS_REC)` for every entry that
is a directory or a regular file (symlinks are value-copied, not mounted). -/
def storeEntryMounts (srcRoot : String) (es : List SEntry) : List MountCall :=
  (es.filter (fun e =>
      match e.kind with
      | FileKind.dir => true
      | FileKind.file => true
      | _ => false)).map
    (fun e => MountCall.mk (some (srcRoot ++ "/" ++ e.name)) ("/nix/store/" ++ e.name)
      (some "none") [MFlag.ms_bind, MFlag.ms_rec] none)

/-- The `mount` syscalls of the store-reconciliation section of `run_chroot`
(lines 203-311).  `outerStoreExists` is the `/nix/nix/store` existence test;
`dEntries` are the supplied store's entries (pass one) and `oAdded` the
stashed outer-store entries actually added by pass two.  In the outer-store
branch: bind `/nix/nix` over `/nix`, stash `/nix/store` at the guarded
temporary path, mount a fresh tmpfs at `/nix/store`, populate both passes,
then remount `/nix/store` with `MS_REMOUNT | MS_RDONLY`.  In the other
branch: mount a tmpfs at `/nix` and bind the supplied directory onto
`/nix/store` with `MS_BIND | MS_REC` only - no read-only remount occurs. -/
def run_chroot_store_mounts (outerStoreExists : Bool) (nixdir tmpPath : String)
    (dEntries oAdded : List SEntry) : List MountCall :=
  if outerStoreExists then
    [MountCall.mk (some "/nix/nix") "/nix" (some "none") [MFlag.ms_bind, MFlag.ms_rec] none,
     MountCall.mk (some "/nix/store") tmpPath (some "none") [MFlag.ms_bind, MFlag.ms_rec] none,
     MountCall.mk (some "none") "/nix/store" (some "tmpfs") [] (some "mode=0755")]
    ++ storeEntryMounts nixdir dEntries
    ++ storeEntryMounts tmpPath oAdded
    ++ [MountCall.mk (some "none") "/nix/store" (some "none")
          [MFlag.ms_remount, MFlag.ms_rdonly] none]
  else
    [MountCall.mk (some "none") "/nix" (some "tmpfs") [] (some "mode=0755"),
     MountCall.mk (some nixdir) "/nix/store" (some "none") [MFlag.ms_bind, MFlag.ms_rec] none]

/-! ## Store reconciliation: resulting directory contents

The merged `/nix/store` directory is modelled as the list of entries
created in it, in creation order.  Mount syscalls and `read_link` are
assumed to succeed (their failures are environmental and panic via
`unwrap`); creation failures with `EEXIST` are derived from the directory
state, exactly as `mkdir(2)` / `symlink(2)` report them. -/

/-- A filesystem object named `n` is present in the store directory
(dangling symlinks included): this is what `mkdir(2)` and `symlink(2)`
check before failing with `EEXIST`. -/
def occupied (store : List SEntry) (n : String) : Bool :=
  store.any (fun e => e.name == n)

/-- `Path::exists()` on `/nix/store/n`: `stat(2)` follows symlinks, so a
directory or regular file reports `true` while a symlink reports whether
its target resolves. -/
def pathExists (store : List SEntry) (n : String) : Bool :=
  match store.find? (fun e => e.name == n) with
  | some e =>
    match e.kind with
    | FileKind.symlink _ r => r
    | _ => true
  | none => false

/-- Body shared by both store-population loops: create a placeholder for
the entry (`create_dir` / `File::create` / `symlink`, each `.unwrap()`ed)
and, for directories and files, bind-mount the source onto it.  `mkdir(2)`
and `symlink(2)` fail with `EEXIST` when any object of that name exists
(dangling symlinks included); `File::create` at a name occupied here can
only hit a dangling symlink left by the first pass, which it would follow
outside the fresh tmpfs - treated as a reconciliation failure.  Entries of
any other kind create nothing and are not mounted. -/
def storeAddEntry (store : List SEntry) (e : SEntry) : Except String (List SEntry) :=
  match e.kind with
  | FileKind.dir =>
    if occupied store e.name then Except.error ("create_dir failed: EEXIST at " ++ e.name)
    else Except.ok (store ++ [e])
  | FileKind.file =>
    if occupied store e.name then Except.error ("File::create failed at " ++ e.name)
    else Except.ok (store ++ [e])
  | FileKind.symlink _ _ =>
    if occupied store e.name then Except.error ("symlink failed: EEXIST at " ++ e.name)
    else Except.ok (store ++ [e])
  | FileKind.other => Except.ok store

/-- First population pass (lines 230-254): every entry of the newly
supplied store directory is created and mounted, with no existence check. -/
def storePassNew (store : List SEntry) : List SEntry → Except String (List SEntry)
  | [] => Except.ok store
  | e :: rest =>
    match storeAddEntry store e with
    | Except.error m => Except.error m
    | Except.ok s2 => storePassNew s2 rest

/-- Second population pass (lines 255-284): for every entry of the stashed
outer store, `if path.exists() { continue; }` skips names the first pass
already provided (as seen through `stat`, which follows symlinks), and the
remaining entries are created and mounted like in the first pass. -/
def storePassOuter (store : List SEntry) : List SEntry → Except String (List SEntry)
  | [] => Except.ok store
  | e :: rest =>
    if pathExists store e.name then storePassOuter store rest
    else
      match storeAddEntry store e with
      | Except.error m => Except.error m
      | Except.ok s2 => storePassOuter s2 rest

/-- The outer-store reconciliation (lines 203-292), as the resulting
`/nix/store` contents: starting from the freshly mounted empty tmpfs, run
the first pass over the supplied store's entries, then - only if the
`read_dir` of the stash mount point succeeded (`outerListing = some ...`;
a failure is silently tolerated by `if let Ok(iter)` and the second pass
is skipped) - run the second pass over the stashed outer store's entries. -/
def mergeStores (dEntries : List SEntry) (outerListing : Option (List SEntry)) :
    Except String (List SEntry) :=
  match storePassNew [] dEntries with
  | Except.error m => Except.error m
  | Except.ok s1 =>
    match outerListing with
    | none => Except.ok s1
    | some oEntries => storePassOuter s1 oEntries

/-- Lookup of a name in a store directory listing. -/
def storeLookup (store : List SEntry) (n : String) : Option SEntry :=
  store.find? (fun e => e.name == n)

/-- The names of a list of store entries, in order. -/
def namesOf (store : List SEntry) : List String :=
  store.map (fun e => e.name)

/-- An entry kind is `other` (neither dir, file nor symlink). -/
def isOther : FileKind → Bool
  | FileKind.other => true
  | _ => false

/-- A kind whose created placeholder is visible to `Path::exists()`:
directories and files always, symlinks only when they resolve; `other`
creates nothing. -/
def goodKind : FileKind → Bool
  | FileKind.dir => true
  | FileKind.file => true
  | FileKind.symlink _ r => r
  | FileKind.other => false

/-- The path under the new root on which a mirror event creates or mounts
an entry (`none` for stderr output, which touches no path). -/
def mirrorEventDest : MirrorEvent → Option String
  | MirrorEvent.createDir d => some d
  | MirrorEvent.createFile d => some d
  | MirrorEvent.createSymlink d _ => some d
  | MirrorEvent.mountBind _ d => some d
  | MirrorEvent.stderrMsg _ => none

/-- Whether an initialization event is an `unshare` call. -/
def isUnshare : InitEvent → Bool
  | InitEvent.unshareCall _ _ => true
  | _ => false

/-! ## Helper lemmas -/

theorem string_append_left_cancel {s t u : String} (h : s ++ t = s ++ u) : t = u := by
  have hd : (s ++ t).data = (s ++ u).data := by rw [h]
  rw [String.data_append, String.data_append] at hd
  have h2 := List.append_cancel_left hd
  cases t
  cases u
  exact congrArg String.mk h2

theorem slash_ne_nix {n : String} (hn : n ≠ "nix") : "/" ++ n ≠ "/nix" := by
  intro h
  apply hn
  have h2 : "/" ++ n = "/" ++ "nix" := by rw [h]; decide
  exact string_append_left_cancel h2

/-! ## Claim theorems -/

/-- Claim C5: a `WrapUmount` that is never defused unmounts its wrapped
path exactly once when it goes out of scope (its drop emits exactly the
one `umount(path)` call), the unmount failing is fatal (the drop panics
with a diagnostic), and a defused guard performs no unmount and no panic
on scope exit. -/
theorem mount_guard_drop_spec (p : String) (umountOk : Bool) (g : WrapUmount) :
    (WrapUmount.drop (WrapUmount.mk p false) umountOk).1 = [DropEvent.umountCall p]
    ∧ ((WrapUmount.drop (WrapUmount.mk p false) umountOk).2
        = if umountOk then none
          else some "called Result::unwrap on an Err value: umount failed")
    ∧ WrapUmount.drop (WrapUmount.defuse g) umountOk = ([], none) := by
  cases umountOk <;> simp [WrapUmount.drop, WrapUmount.defuse]

/-- Claim C8: for every invocation with fewer than 2 arguments after the
binary name, `main` prints the usage line to standard error and exits with
status 1, and control never reaches `run_chroot`, where all mount and
namespace syscalls of the program live. -/
theorem usage_exit_spec (arg0 : String) (rest : List String)
    (resolve : String → Option String) (h : rest.length < 2) :
    mainModel (arg0 :: rest) resolve
      = MainOutcome.usageExit ("Usage: " ++ arg0 ++ " <nixpath> <command>") 1
    ∧ exitCode (mainModel (arg0 :: rest) resolve) = some 1
    ∧ ∀ n c a, mainModel (arg0 :: rest) resolve ≠ MainOutcome.chrootInvoked n c a := by
  match rest with
  | [] => refine ⟨rfl, rfl, ?_⟩; intro n c a; simp [mainModel]
  | [a1] => refine ⟨rfl, rfl, ?_⟩; intro n c a; simp [mainModel]
  | a1 :: a2 :: t => simp [List.length_cons] at h; omega

/-- Witness for C8 at a concrete one-argument invocation. -/
theorem usage_exit_spec_witness :
    mainModel ["nix-user-chroot"] (fun _ => none)
      = MainOutcome.usageExit ("Usage: " ++ "nix-user-chroot" ++ " <nixpath> <command>") 1 :=
  (usage_exit_spec "nix-user-chroot" [] (fun _ => none) (by decide)).1

/-- Counterexample to claim C3: with an unresolvable store-source path the
process does not exit with status 1 - `unwrap_or_else(panic!)` panics, and
the Rust runtime terminates the process with status 101. -/
theorem resolve_failure_counterexample :
    mainModel ["nix-user-chroot", "/no/such/path", "true"] (fun _ => none)
      = MainOutcome.panicked ("failed to resolve nix directory " ++ "/no/such/path")
    ∧ exitCode (mainModel ["nix-user-chroot", "/no/such/path", "true"] (fun _ => none))
        ≠ some 1 := by
  exact ⟨rfl, by decide⟩

/-- Claim C3 as amended: for every invocation whose store-source path
cannot be canonicalized, `main` panics with a diagnostic naming the path
(reported on standard error by the panic handler) and the process
terminates with the panic exit status 101 - not 1 - and control never
reaches `run_chroot`, so no namespace mutation (unshare or mount) occurs. -/
theorem resolve_failure_panics (arg0 a1 a2 : String) (tail : List String)
    (resolve : String → Option String) (h : resolve a1 = none) :
    mainModel (arg0 :: a1 :: a2 :: tail) resolve
      = MainOutcome.panicked ("failed to resolve nix directory " ++ a1)
    ∧ exitCode (mainModel (arg0 :: a1 :: a2 :: tail) resolve) = some 101
    ∧ ∀ n c a, mainModel (arg0 :: a1 :: a2 :: tail) resolve
        ≠ MainOutcome.chrootInvoked n c a := by
  refine ⟨?_, ?_, ?_⟩ <;> simp [mainModel, h, exitCode]

/-- Witness for the amended C3 at a concrete unresolvable path. -/
theorem resolve_failure_panics_witness :
    mainModel ["nix-user-chroot", "/bad", "true"] (fun _ => none)
      = MainOutcome.panicked ("failed to resolve nix directory " ++ "/bad") :=
  (resolve_failure_panics "nix-user-chroot" "/bad" "true" [] (fun _ => none) rfl).1

/-- Counterexample to claim C2: in the no-outer-store case the entire
store-reconciliation mount sequence carries no `MS_RDONLY` flag at all -
the supplied store is bind-mounted onto `/nix/store` read-write and never
remounted read-only. -/
theorem store_rdonly_counterexample :
    run_chroot_store_mounts false "/home/user/store" "/tmp/stash" [] []
      = [MountCall.mk (some "none") "/nix" (some "tmpfs") [] (some "mode=0755"),
         MountCall.mk (some "/home/user/store") "/nix/store" (some "none")
           [MFlag.ms_bind, MFlag.ms_rec] none]
    ∧ ((run_chroot_store_mounts false "/home/user/store" "/tmp/stash" [] []).all
        (fun c => !(c.flags.contains MFlag.ms_rdonly))) = true := by
  exact ⟨rfl, by decide⟩

/-- Claim C2 as amended: in the outer-store-present case the last mount
call of store reconciliation remounts `/nix/store` with
`MS_REMOUNT | MS_RDONLY`, making the store mount read-only; in the
no-outer-store case the store is bind-mounted read-write and no mount call
of the sequence carries `MS_RDONLY`. -/
theorem store_rdonly_amended (nixdir tmpPath : String) (dE oA : List SEntry) :
    ((run_chroot_store_mounts true nixdir tmpPath dE oA).getLast?
      = some (MountCall.mk (some "none") "/nix/store" (some "none")
          [MFlag.ms_remount, MFlag.ms_rdonly] none))
    ∧ ((run_chroot_store_mounts false nixdir tmpPath dE oA).all
        (fun c => !(c.flags.contains MFlag.ms_rdonly))) = true := by
  constructor
  · show (_ ++ _ ++ _ ++ [_]).getLast? = _
    rw [List.getLast?_concat]
  · simp [run_chroot_store_mounts]

/-- Every event emitted for one successfully mirrored entry either touches
no path or touches the mountpoint of that entry's own name, which is never
`/nix`. -/
theorem mirror_event_dest_not_nix (oe : Option DEntry) (env : SysEnv)
    (evs : List MirrorEvent) (hok : bind_mount_direntry oe env = Except.ok evs) :
    ∀ ev ∈ evs, mirrorEventDest ev ≠ some "/nix" := by
  match oe with
  | none => simp [bind_mount_direntry] at hok
  | some e =>
    by_cases hn : e.name = "nix"
    · simp [bind_mount_direntry, hn] at hok
      subst hok
      simp
    · have hne := slash_ne_nix hn
      cases hst : env.statOk with
      | false => simp [bind_mount_direntry, hn, hst] at hok
      | true =>
        cases hk : e.kind with
        | dir =>
          cases hc : env.createRes <;> cases hm : env.mountOk <;>
            simp [bind_mount_direntry, bind_mount_directory, bind_mount,
              hn, hst, hk, hc, hm] at hok <;>
            subst hok <;>
            simp [List.forall_mem_cons, mirrorEventDest, hne]
        | file =>
          cases hc : env.createRes <;> cases hm : env.mountOk <;>
            simp [bind_mount_direntry, bind_mount_file, bind_mount,
              hn, hst, hk, hc, hm] at hok <;>
            subst hok <;>
            simp [List.forall_mem_cons, mirrorEventDest, hne]
        | symlink t r =>
          cases hrl : env.readlinkOk <;> cases hsl : env.symlinkOk <;>
            simp [bind_mount_direntry, mirror_symlink, hn, hst, hk, hrl, hsl] at hok <;>
            (subst hok
             simp [List.forall_mem_cons, mirrorEventDest, hne])
        | other =>
          simp [bind_mount_direntry, hn, hst, hk] at hok
          subst hok
          simp

/-- Claim C6: an entry named `nix` at the old root's top level is skipped
before any stat, classification or mount (its mirroring returns no events
even when its stat would fail), and consequently no event of the whole
tree-mirror loop ever creates or mounts anything at `/nix` under the new
root. -/
theorem nix_entry_never_mirrored (input : List (Option DEntry × SysEnv)) :
    (∀ k env, bind_mount_direntry (some (DEntry.mk "nix" k)) env = Except.ok [])
    ∧ ∀ ev ∈ (mirrorAll input).1, mirrorEventDest ev ≠ some "/nix" := by
  constructor
  · intro k env
    simp [bind_mount_direntry]
  · induction input with
    | nil =>
      intro ev h
      simp [mirrorAll] at h
    | cons p rest ih =>
      intro ev hmem
      obtain ⟨oe, env⟩ := p
      cases hok : bind_mount_direntry oe env with
      | error m => simp [mirrorAll, hok] at hmem
      | ok evs =>
        simp only [mirrorAll, hok] at hmem
        rcases List.mem_append.mp hmem with h | h
        · exact mirror_event_dest_not_nix oe env evs hok ev h
        · exact ih ev h

/-- Claim C7: namespace initialization performs, in order, a single
`unshare` call combining the user and mount namespace flags, a best-effort
write of `deny` to the setgroups control file whose failure (of the open or
of the discarded write) never changes the fatality outcome, then
fatal-on-failure writes of the identity mapping `uid uid 1` to the UID map
and `gid gid 1` to the GID map; on all-success the full ordered trace is
produced with no panic. -/
theorem namespace_init_spec (uid gid : Nat) (env : InitEnv) :
    ((nsInit uid gid env).1.head? = some (InitEvent.unshareCall true true))
    ∧ ((nsInit uid gid env).1.filter isUnshare = [InitEvent.unshareCall true true])
    ∧ (∀ b b2, (nsInit uid gid
        { env with setgroupsOpenOk := b, setgroupsWriteOk := b2 }).2
        = (nsInit uid gid env).2)
    ∧ (env.unshareOk = false → (nsInit uid gid env).2 = some "unshare failed")
    ∧ (env.unshareOk = true → env.uidOpenOk = false →
        (nsInit uid gid env).2 = some "failed to open /proc/self/uid_map")
    ∧ (env.unshareOk = true → env.uidOpenOk = true → env.uidWriteOk = false →
        (nsInit uid gid env).2
          = some "failed to write new uid mapping to /proc/self/uid_map")
    ∧ (env.unshareOk = true → env.uidOpenOk = true → env.uidWriteOk = true →
        env.gidOpenOk = false →
        (nsInit uid gid env).2 = some "failed to open /proc/self/gid_map")
    ∧ (env.unshareOk = true → env.uidOpenOk = true → env.uidWriteOk = true →
        env.gidOpenOk = true → env.gidWriteOk = false →
        (nsInit uid gid env).2
          = some "failed to write new gid mapping to /proc/self/gid_map")
    ∧ (env.unshareOk = true → env.setgroupsOpenOk = true → env.uidOpenOk = true →
        env.uidWriteOk = true → env.gidOpenOk = true → env.gidWriteOk = true →
        nsInit uid gid env
          = ([InitEvent.unshareCall true true,
              InitEvent.writeSetgroups "deny",
              InitEvent.writeUidMap (toString uid ++ " " ++ toString uid ++ " 1"),
              InitEvent.writeGidMap (toString gid ++ " " ++ toString gid ++ " 1")],
             none)) := by
  obtain ⟨u, so, sw, uo, uw, go, gw⟩ := env
  refine ⟨?_, ?_, ?_, ?_, ?_, ?_, ?_, ?_, ?_⟩
  · cases u <;> cases so <;> cases uo <;> cases uw <;> cases go <;> cases gw <;> rfl
  · cases u <;> cases so <;> cases uo <;> cases uw <;> cases go <;> cases gw <;> rfl
  · intro b b2
    cases u <;> cases uo <;> cases uw <;> cases go <;> cases gw <;> simp [nsInit]
  · intro h1
    subst h1
    simp [nsInit]
  · intro h1 h2
    subst h1; subst h2
    simp [nsInit]
  · intro h1 h2 h3
    subst h1; subst h2; subst h3
    simp [nsInit]
  · intro h1 h2 h3 h4
    subst h1; subst h2; subst h3; subst h4
    simp [nsInit]
  · intro h1 h2 h3 h4 h5
    subst h1; subst h2; subst h3; subst h4; subst h5
    simp [nsInit]
  · intro h1 h2 h3 h4 h5 h6
    subst h1; subst h2; subst h3; subst h4; subst h5; subst h6
    rfl

/-- Witness for C7 at concrete ids with the all-success environment. -/
theorem namespace_init_spec_witness :
    nsInit 1000 100 (InitEnv.mk true true true true true true true)
      = ([InitEvent.unshareCall true true,
          InitEvent.writeSetgroups "deny",
          InitEvent.writeUidMap (toString 1000 ++ " " ++ toString 1000 ++ " 1"),
          InitEvent.writeGidMap (toString 100 ++ " " ++ toString 100 ++ " 1")],
         none) :=
  (namespace_init_spec 1000 100
    (InitEnv.mk true true true true true true true)).2.2.2.2.2.2.2.2
    rfl rfl rfl rfl rfl rfl

/-- Counterexample to claim C1: with two top-level directory entries where
the first entry's bind-mount syscall fails, the mirror prints the
diagnostic to stderr, does not panic, and still mirrors the second entry -
the failure is not fatal and mirroring continues. -/
theorem bind_mount_failure_counterexample :
    mirrorAll
        [(some (DEntry.mk "bin" FileKind.dir),
          SysEnv.mk true CreateRes.ok false true true),
         (some (DEntry.mk "etc" FileKind.dir),
          SysEnv.mk true CreateRes.ok true true true)]
      = ([MirrorEvent.createDir "/bin",
          MirrorEvent.mountBind "/nix/bin" "/bin",
          MirrorEvent.stderrMsg "failed to bind mount /nix/bin to /bin",
          MirrorEvent.createDir "/etc",
          MirrorEvent.mountBind "/nix/etc" "/etc"], none) := by
  decide

/-- Claim C1 as amended: a failure of the bind-mount syscall for a
top-level directory or regular-file entry is not fatal; the mirror emits a
stderr diagnostic identifying the source and destination paths and
continues with the remaining entries (the loop result is the failed
entry's events followed by the untouched processing of the rest). -/
theorem bind_mount_failure_nonfatal (e : DEntry) (env : SysEnv)
    (rest : List (Option DEntry × SysEnv))
    (hn : e.name ≠ "nix") (hst : env.statOk = true)
    (hcr : env.createRes ≠ CreateRes.err) (hm : env.mountOk = false)
    (hk : e.kind = FileKind.dir ∨ e.kind = FileKind.file) :
    ∃ evs,
      bind_mount_direntry (some e) env = Except.ok evs
      ∧ MirrorEvent.stderrMsg ("failed to bind mount " ++ ("/nix/" ++ e.name)
          ++ " to " ++ ("/" ++ e.name)) ∈ evs
      ∧ mirrorAll ((some e, env) :: rest)
          = (evs ++ (mirrorAll rest).1, (mirrorAll rest).2) := by
  rcases hk with hk | hk
  · have hok : bind_mount_direntry (some e) env = Except.ok
        [MirrorEvent.createDir ("/" ++ e.name),
         MirrorEvent.mountBind ("/nix/" ++ e.name) ("/" ++ e.name),
         MirrorEvent.stderrMsg ("failed to bind mount " ++ ("/nix/" ++ e.name)
           ++ " to " ++ ("/" ++ e.name))] := by
      cases hc : env.createRes with
      | err => exact absurd hc hcr
      | ok =>
        simp [bind_mount_direntry, bind_mount_directory, bind_mount, hn, hst, hk, hm, hc]
      | alreadyExists =>
        simp [bind_mount_direntry, bind_mount_directory, bind_mount, hn, hst, hk, hm, hc]
    exact ⟨_, hok, by simp, by simp [mirrorAll, hok]⟩
  · have hok : bind_mount_direntry (some e) env = Except.ok
        [MirrorEvent.createFile ("/" ++ e.name),
         MirrorEvent.mountBind ("/nix/" ++ e.name) ("/" ++ e.name),
         MirrorEvent.stderrMsg ("failed to bind mount " ++ ("/nix/" ++ e.name)
           ++ " to " ++ ("/" ++ e.name))] := by
      cases hc : env.createRes with
      | err => exact absurd hc hcr
      | ok =>
        simp [bind_mount_direntry, bind_mount_file, bind_mount, hn, hst, hk, hm, hc]
      | alreadyExists =>
        simp [bind_mount_direntry, bind_mount_file, bind_mount, hn, hst, hk, hm, hc]
    exact ⟨_, hok, by simp, by simp [mirrorAll, hok]⟩

/-- Witness for the amended C1 at a concrete failing directory entry. -/
theorem bind_mount_failure_nonfatal_witness :
    ∃ evs,
      bind_mount_direntry (some (DEntry.mk "bin" FileKind.dir))
          (SysEnv.mk true CreateRes.ok false true true) = Except.ok evs
      ∧ MirrorEvent.stderrMsg ("failed to bind mount " ++ ("/nix/" ++ "bin")
          ++ " to " ++ ("/" ++ "bin")) ∈ evs
      ∧ mirrorAll [(some (DEntry.mk "bin" FileKind.dir),
            SysEnv.mk true CreateRes.ok false true true)]
          = (evs ++ (mirrorAll []).1, (mirrorAll []).2) :=
  bind_mount_failure_nonfatal (DEntry.mk "bin" FileKind.dir)
    (SysEnv.mk true CreateRes.ok false true true) [] (by decide) rfl (by decide)
    rfl (Or.inl rfl)

/-! ## Store-merge lemmas -/

theorem occupied_append (s t : List SEntry) (n : String) :
    occupied (s ++ t) n = (occupied s n || occupied t n) := by
  simp [occupied, List.any_append]

theorem occupied_single (e : SEntry) (n : String) :
    occupied [e] n = (e.name == n) := by
  simp [occupied]

theorem occupied_true_iff (s : List SEntry) (n : String) :
    occupied s n = true ↔ ∃ e ∈ s, e.name = n := by
  simp [occupied, List.any_eq_true]

theorem occupied_of_mem (s : List SEntry) (e : SEntry) (he : e ∈ s) :
    occupied s e.name = true :=
  (occupied_true_iff s e.name).mpr ⟨e, he, rfl⟩

theorem name_ne_of_notin (rest : List SEntry) (x : SEntry) (n : String)
    (hx : x ∈ rest) (h : n ∉ namesOf rest) : n ≠ x.name := by
  intro he
  apply h
  rw [he]
  exact List.mem_map.mpr ⟨x, hx, rfl⟩

theorem find?_name_append_single (s : List SEntry) (e : SEntry) (n : String)
    (h : e.name ≠ n) :
    List.find? (fun x => x.name == n) (s ++ [e])
      = List.find? (fun x => x.name == n) s := by
  rw [List.find?_append]
  have h1 : List.find? (fun x => x.name == n) [e] = none := by
    rw [List.find?_cons_of_neg]
    · rfl
    · simp [h]
  rw [h1, Option.or_none]

theorem pathExists_append_single_ne (store : List SEntry) (e : SEntry) (n : String)
    (h : e.name ≠ n) : pathExists (store ++ [e]) n = pathExists store n := by
  unfold pathExists
  rw [find?_name_append_single store e n h]

theorem pathExists_of_good (s : List SEntry) (n : String)
    (hg : ∀ e ∈ s, goodKind e.kind = true) :
    pathExists s n = occupied s n := by
  unfold pathExists
  cases hf : List.find? (fun x => x.name == n) s with
  | none =>
    cases hoc : occupied s n with
    | false => rfl
    | true =>
      exfalso
      obtain ⟨x, hx, hxn⟩ := (occupied_true_iff s n).mp hoc
      exact (List.find?_eq_none.mp hf x hx) (by simp [hxn])
  | some x =>
    have hx2 : x ∈ s := List.mem_of_find?_eq_some hf
    have hgx := hg x hx2
    have hoc : occupied s n = true :=
      (occupied_true_iff s n).mpr ⟨x, hx2, by simpa using List.find?_some hf⟩
    rw [hoc]
    show (match x.kind with
      | FileKind.symlink _ r => r
      | _ => true) = true
    cases hk : x.kind with
    | dir => rfl
    | file => rfl
    | symlink t r =>
      rw [hk] at hgx
      simpa [goodKind] using hgx
    | other => rfl

theorem goodKind_not_other (k : FileKind) (h : goodKind k = true) :
    isOther k = false := by
  cases k <;> simp [isOther, goodKind] at h ⊢

theorem namesOf_append (s t : List SEntry) :
    namesOf (s ++ t) = namesOf s ++ namesOf t := by
  simp [namesOf]

theorem storePassNew_ok (es : List SEntry) : ∀ (store : List SEntry),
    (namesOf es).Nodup → (∀ e ∈ es, occupied store e.name = false) →
    storePassNew store es
      = Except.ok (store ++ es.filter (fun e => !isOther e.kind)) := by
  induction es with
  | nil =>
    intro store _ _
    simp [storePassNew]
  | cons e rest ih =>
    intro store hnd hocc
    have hnd' := List.nodup_cons.mp hnd
    have hocc_e := hocc e (List.mem_cons_self e rest)
    by_cases hio : isOther e.kind = true
    · have hk : e.kind = FileKind.other := by
        cases hk2 : e.kind <;> first | rfl | simp [isOther, hk2] at hio
      have h1 : storeAddEntry store e = Except.ok store := by
        simp [storeAddEntry, hk]
      simp only [storePassNew, h1]
      rw [ih store hnd'.2 (fun x hx => hocc x (List.mem_cons_of_mem e hx))]
      simp [List.filter_cons, hio]
    · rw [Bool.not_eq_true] at hio
      have hadd : storeAddEntry store e = Except.ok (store ++ [e]) := by
        cases hk2 : e.kind with
        | dir => simp [storeAddEntry, hk2, hocc_e]
        | file => simp [storeAddEntry, hk2, hocc_e]
        | symlink t r => simp [storeAddEntry, hk2, hocc_e]
        | other =>
          rw [hk2] at hio
          simp [isOther] at hio
      simp only [storePassNew, hadd]
      have hocc2 : ∀ x ∈ rest, occupied (store ++ [e]) x.name = false := by
        intro x hx
        rw [occupied_append, hocc x (List.mem_cons_of_mem e hx), occupied_single,
          beq_eq_false_iff_ne.mpr (name_ne_of_notin rest x e.name hx hnd'.1)]
        rfl
      rw [ih (store ++ [e]) hnd'.2 hocc2]
      simp [List.filter_cons, hio, List.append_assoc]

theorem storePassOuter_ok (es : List SEntry) : ∀ (store : List SEntry),
    (namesOf es).Nodup →
    (∀ e ∈ es, pathExists store e.name = true ∨ occupied store e.name = false) →
    storePassOuter store es
      = Except.ok (store
          ++ es.filter (fun x => !pathExists store x.name && !isOther x.kind)) := by
  induction es with
  | nil =>
    intro store _ _
    simp [storePassOuter]
  | cons e rest ih =>
    intro store hnd hinv
    have hnd' := List.nodup_cons.mp hnd
    cases hpe : pathExists store e.name with
    | true =>
      simp only [storePassOuter, hpe, if_true]
      rw [ih store hnd'.2 (fun x hx => hinv x (List.mem_cons_of_mem e hx))]
      simp [List.filter_cons, hpe]
    | false =>
      have hocc_e : occupied store e.name = false := by
        rcases hinv e (List.mem_cons_self e rest) with h | h
        · rw [hpe] at h
          cases h
        · exact h
      by_cases hio : isOther e.kind = true
      · have hk : e.kind = FileKind.other := by
          cases hk2 : e.kind <;> first | rfl | simp [isOther, hk2] at hio
        have h1 : storeAddEntry store e = Except.ok store := by
          simp [storeAddEntry, hk]
        simp only [storePassOuter, hpe, h1]
        rw [ih store hnd'.2 (fun x hx => hinv x (List.mem_cons_of_mem e hx))]
        simp [List.filter_cons, hio]
      · rw [Bool.not_eq_true] at hio
        have hadd : storeAddEntry store e = Except.ok (store ++ [e]) := by
          cases hk2 : e.kind with
          | dir => simp [storeAddEntry, hk2, hocc_e]
          | file => simp [storeAddEntry, hk2, hocc_e]
          | symlink t r => simp [storeAddEntry, hk2, hocc_e]
          | other =>
            rw [hk2] at hio
            simp [isOther] at hio
        simp only [storePassOuter, hpe, hadd]
        have hne : ∀ x ∈ rest, e.name ≠ x.name :=
          fun x hx => name_ne_of_notin rest x e.name hx hnd'.1
        have hinv2 : ∀ x ∈ rest, pathExists (store ++ [e]) x.name = true
            ∨ occupied (store ++ [e]) x.name = false := by
          intro x hx
          rw [pathExists_append_single_ne store e x.name (hne x hx),
            occupied_append, occupied_single,
            beq_eq_false_iff_ne.mpr (hne x hx), Bool.or_false]
          exact hinv x (List.mem_cons_of_mem e hx)
        rw [ih (store ++ [e]) hnd'.2 hinv2]
        have hfc : rest.filter
              (fun x => !pathExists (store ++ [e]) x.name && !isOther x.kind)
            = rest.filter (fun x => !pathExists store x.name && !isOther x.kind) := by
          apply List.filter_congr
          intro x hx
          rw [pathExists_append_single_ne store e x.name (hne x hx)]
        rw [hfc]
        simp [List.filter_cons, hpe, hio, List.append_assoc]

theorem storePassNew_good (dE : List SEntry) (hdn : (namesOf dE).Nodup)
    (hgd : ∀ e ∈ dE, goodKind e.kind = true) :
    storePassNew [] dE = Except.ok dE := by
  rw [storePassNew_ok dE [] hdn (fun e _ => rfl), List.nil_append,
    List.filter_eq_self.mpr (fun x hx => by simp [goodKind_not_other x.kind (hgd x hx)])]

theorem mergeStores_ok_eq (dE oE : List SEntry)
    (hdn : (namesOf dE).Nodup) (hon : (namesOf oE).Nodup)
    (hgd : ∀ e ∈ dE, goodKind e.kind = true)
    (hgo : ∀ e ∈ oE, isOther e.kind = false) :
    mergeStores dE (some oE)
      = Except.ok (dE ++ oE.filter (fun x => !occupied dE x.name)) := by
  simp only [mergeStores, storePassNew_good dE hdn hgd]
  have hinv : ∀ x ∈ oE, pathExists dE x.name = true ∨ occupied dE x.name = false := by
    intro x hx
    rw [pathExists_of_good dE x.name hgd]
    cases occupied dE x.name
    · exact Or.inr rfl
    · exact Or.inl rfl
  rw [storePassOuter_ok oE dE hon hinv]
  have hfc : oE.filter (fun x => !pathExists dE x.name && !isOther x.kind)
      = oE.filter (fun x => !occupied dE x.name) := by
    apply List.filter_congr
    intro x hx
    rw [pathExists_of_good dE x.name hgd, hgo x hx]
    simp
  rw [hfc]

theorem storeLookup_append (s t : List SEntry) (n : String) :
    storeLookup (s ++ t) n = (storeLookup s n).or (storeLookup t n) := by
  simp [storeLookup, List.find?_append]

theorem find?_name_filter (l : List SEntry) (q : SEntry → Bool) (n : String)
    (h : ∀ x ∈ l, x.name = n → q x = true) :
    List.find? (fun x => x.name == n) (l.filter q)
      = List.find? (fun x => x.name == n) l := by
  induction l with
  | nil => rfl
  | cons a l ih =>
    by_cases hb : a.name = n
    · have hq := h a (List.mem_cons_self a l) hb
      rw [List.filter_cons, if_pos hq,
        @List.find?_cons_of_pos SEntry (fun x => x.name == n) a (List.filter q l)
          (by simp [hb]),
        @List.find?_cons_of_pos SEntry (fun x => x.name == n) a l (by simp [hb])]
    · have hbeq : ¬((fun x : SEntry => x.name == n) a = true) := by simp [hb]
      rw [@List.find?_cons_of_neg SEntry (fun x => x.name == n) a l hbeq]
      by_cases hq : q a = true
      · rw [List.filter_cons, if_pos hq,
          @List.find?_cons_of_neg SEntry (fun x => x.name == n) a (List.filter q l) hbeq]
        exact ih (fun x hx => h x (List.mem_cons_of_mem a hx))
      · rw [List.filter_cons, if_neg hq]
        exact ih (fun x hx => h x (List.mem_cons_of_mem a hx))

/-- Counterexample to claim C4: when the newly supplied store contains a
dangling symlink `a` and the outer store contains an entry of the same
name, the second pass's `path.exists()` check is false (`stat` follows the
dangling link), so the pass attempts to recreate `a`; `create_dir` then
fails with `EEXIST` (the symlink occupies the name) and the `.unwrap()`
panics - no merged store with the union of names results. -/
theorem merge_union_counterexample :
    mergeStores [SEntry.mk "a" (FileKind.symlink "missing" false) "new/a"]
        (some [SEntry.mk "a" FileKind.dir "outer/a"])
      = Except.error "create_dir failed: EEXIST at a" := by
  rfl

/-- Claim C4 as amended: for every pair of store directories with
internally distinct entry names, in which the supplied store's entries are
directories, regular files or symlinks that resolve once recreated, and
the outer store's entries are directories, regular files or symlinks, the
merge succeeds and produces exactly the supplied store's entries followed
by the outer entries whose names the supplied store does not provide; name
lookup in the result is lookup in the supplied store first (the newly
supplied store wins every collision), falling back to the outer store. -/
theorem merge_union_amended (dE oE : List SEntry)
    (hdn : (namesOf dE).Nodup) (hon : (namesOf oE).Nodup)
    (hgd : ∀ e ∈ dE, goodKind e.kind = true)
    (hgo : ∀ e ∈ oE, isOther e.kind = false) :
    mergeStores dE (some oE)
      = Except.ok (dE ++ oE.filter (fun x => !occupied dE x.name))
    ∧ ∀ n, storeLookup (dE ++ oE.filter (fun x => !occupied dE x.name)) n
        = (storeLookup dE n).or (storeLookup oE n) := by
  refine ⟨mergeStores_ok_eq dE oE hdn hon hgd hgo, ?_⟩
  intro n
  rw [storeLookup_append]
  cases hf : storeLookup dE n with
  | some x => rw [Option.or_some, Option.or_some]
  | none =>
    have hocc : occupied dE n = false := by
      cases hoc : occupied dE n with
      | false => rfl
      | true =>
        exfalso
        obtain ⟨x, hx, hxn⟩ := (occupied_true_iff dE n).mp hoc
        simp only [storeLookup] at hf
        exact (List.find?_eq_none.mp hf x hx) (by simp [hxn])
    have hq : ∀ x ∈ oE, x.name = n → (!occupied dE x.name) = true := by
      intro x _ hxn
      rw [hxn, hocc]
      rfl
    show Option.or none _ = Option.or none _
    rw [Option.none_or, Option.none_or]
    simp only [storeLookup]
    exact find?_name_filter oE (fun x => !occupied dE x.name) n hq

/-- Witness for the amended C4: a concrete merge with one colliding name
`b` (resolved to the supplied store's entry) and unique names `a`, `c`. -/
theorem merge_union_amended_witness :
    mergeStores [SEntry.mk "a" FileKind.dir "new/a", SEntry.mk "b" FileKind.file "new/b"]
        (some [SEntry.mk "b" FileKind.dir "outer/b",
               SEntry.mk "c" (FileKind.symlink "t" true) "outer/c"])
      = Except.ok ([SEntry.mk "a" FileKind.dir "new/a", SEntry.mk "b" FileKind.file "new/b"]
          ++ ([SEntry.mk "b" FileKind.dir "outer/b",
               SEntry.mk "c" (FileKind.symlink "t" true) "outer/c"].filter
              (fun x => !occupied [SEntry.mk "a" FileKind.dir "new/a",
                  SEntry.mk "b" FileKind.file "new/b"] x.name))) :=
  (merge_union_amended
    [SEntry.mk "a" FileKind.dir "new/a", SEntry.mk "b" FileKind.file "new/b"]
    [SEntry.mk "b" FileKind.dir "outer/b", SEntry.mk "c" (FileKind.symlink "t" true) "outer/c"]
    (by decide) (by decide) (by decide) (by decide)).1

/-- Counterexample to claim C9: reconciliation is not idempotent on all
inputs.  With a supplied store holding one dangling symlink `a` and an
empty outer store, the first run succeeds and yields `a`; running the
reconciliation again - the merged store now being the outer store - panics
(`symlink` hits `EEXIST` because `path.exists()` is false for the dangling
link), so the second run does not reproduce the first run's mapping. -/
theorem merge_idempotent_counterexample :
    mergeStores [SEntry.mk "a" (FileKind.symlink "missing" false) "new/a"] (some [])
      = Except.ok [SEntry.mk "a" (FileKind.symlink "missing" false) "new/a"]
    ∧ mergeStores [SEntry.mk "a" (FileKind.symlink "missing" false) "new/a"]
        (some [SEntry.mk "a" (FileKind.symlink "missing" false) "new/a"])
      = Except.error "symlink failed: EEXIST at a" := by
  exact ⟨rfl, rfl⟩

/-- Claim C9 as amended: under the same well-formedness hypotheses as the
amended C4 (distinct names, supplied entries are directories, files or
resolving symlinks, outer entries are not of other kinds), reconciliation
is idempotent: if merging the supplied store with the outer store yields a
merged store, then reconciling the supplied store against that merged
store yields it unchanged. -/
theorem merge_idempotent_amended (dE oE rE : List SEntry)
    (hdn : (namesOf dE).Nodup) (hon : (namesOf oE).Nodup)
    (hgd : ∀ e ∈ dE, goodKind e.kind = true)
    (hgo : ∀ e ∈ oE, isOther e.kind = false)
    (hR : mergeStores dE (some oE) = Except.ok rE) :
    mergeStores dE (some rE) = Except.ok rE := by
  rw [mergeStores_ok_eq dE oE hdn hon hgd hgo] at hR
  have hRe : rE = dE ++ oE.filter (fun x => !occupied dE x.name) := by
    injection hR with h
    exact h.symm
  subst hRe
  have hOfocc : ∀ x ∈ oE.filter (fun x => !occupied dE x.name),
      occupied dE x.name = false := by
    intro x hx
    have h2 := List.of_mem_filter hx
    simpa using h2
  have hndR : (namesOf (dE ++ oE.filter (fun x => !occupied dE x.name))).Nodup := by
    rw [namesOf_append, List.nodup_append]
    refine ⟨hdn, ?_, ?_⟩
    · exact List.Nodup.sublist (List.Sublist.map _ (List.filter_sublist oE)) hon
    · rw [List.disjoint_left]
      intro n hn hn2
      obtain ⟨x, hx, hxn⟩ := List.mem_map.mp hn2
      have hocc := hOfocc x hx
      rw [hxn] at hocc
      obtain ⟨y, hy, hyn⟩ := List.mem_map.mp hn
      have htrue : occupied dE n = true := (occupied_true_iff dE n).mpr ⟨y, hy, hyn⟩
      rw [htrue] at hocc
      cases hocc
  have hinvR : ∀ x ∈ dE ++ oE.filter (fun x => !occupied dE x.name),
      pathExists dE x.name = true ∨ occupied dE x.name = false := by
    intro x hx
    rcases List.mem_append.mp hx with h | h
    · left
      rw [pathExists_of_good dE x.name hgd]
      exact occupied_of_mem dE x h
    · right
      exact hOfocc x h
  simp only [mergeStores, storePassNew_good dE hdn hgd]
  rw [storePassOuter_ok (dE ++ oE.filter (fun x => !occupied dE x.name)) dE hndR hinvR]
  rw [List.filter_append]
  have h1 : dE.filter (fun x => !pathExists dE x.name && !isOther x.kind) = [] := by
    apply List.filter_eq_nil_iff.mpr
    intro x hx
    rw [pathExists_of_good dE x.name hgd, occupied_of_mem dE x hx]
    simp
  have h2 : (oE.filter (fun x => !occupied dE x.name)).filter
        (fun x => !pathExists dE x.name && !isOther x.kind)
      = oE.filter (fun x => !occupied dE x.name) := by
    apply List.filter_eq_self.mpr
    intro x hx
    rw [pathExists_of_good dE x.name hgd, hOfocc x hx,
      hgo x (List.mem_of_mem_filter hx)]
    rfl
  rw [h1, h2, List.nil_append]

/-- Witness for the amended C9: a concrete merged store that reconciling
again leaves unchanged. -/
theorem merge_idempotent_amended_witness :
    mergeStores [SEntry.mk "a" FileKind.dir "new/a"]
        (some ([SEntry.mk "a" FileKind.dir "new/a"]
          ++ [SEntry.mk "b" FileKind.dir "outer/b"].filter
              (fun x => !occupied [SEntry.mk "a" FileKind.dir "new/a"] x.name)))
      = Except.ok ([SEntry.mk "a" FileKind.dir "new/a"]
          ++ [SEntry.mk "b" FileKind.dir "outer/b"].filter
              (fun x => !occupied [SEntry.mk "a" FileKind.dir "new/a"] x.name)) :=
  merge_idempotent_amended
    [SEntry.mk "a" FileKind.dir "new/a"]
    [SEntry.mk "b" FileKind.dir "outer/b"]
    ([SEntry.mk "a" FileKind.dir "new/a"]
      ++ [SEntry.mk "b" FileKind.dir "outer/b"].filter
          (fun x => !occupied [SEntry.mk "a" FileKind.dir "new/a"] x.name))
    (by decide) (by decide) (by decide) (by decide) rfl

/-- Claim C10: in the outer-store merge path, a failure of the `read_dir`
on the stash mount point is silently tolerated (`if let Ok(iter)`): the
reconciliation still succeeds, the second pass is skipped entirely, and
the resulting store contains exactly the newly supplied store's
directory, file and symlink entries - nothing from the outer store. -/
theorem outer_listing_failure_tolerated (dE : List SEntry)
    (hdn : (namesOf dE).Nodup) :
    mergeStores dE none = Except.ok (dE.filter (fun e => !isOther e.kind)) := by
  simp only [mergeStores, storePassNew_ok dE [] hdn (fun e _ => rfl), List.nil_append]

/-- Witness for C10 at a concrete supplied store (its dangling symlink is
harmless in the first pass). -/
theorem outer_listing_failure_tolerated_witness :
    mergeStores [SEntry.mk "a" FileKind.dir "new/a",
        SEntry.mk "s" (FileKind.symlink "t" false) "new/s"] none
      = Except.ok ([SEntry.mk "a" FileKind.dir "new/a",
          SEntry.mk "s" (FileKind.symlink "t" false) "new/s"].filter
          (fun e => !isOther e.kind)) :=
  outer_listing_failure_tolerated
    [SEntry.mk "a" FileKind.dir "new/a", SEntry.mk "s" (FileKind.symlink "t" false) "new/s"]
    (by decide)

end NixUserChroot
